import Mathlib

/-!
Shallow embedding of the conversational-registration core of
`src/backend/webhook.js` (the first file in that source bundle; the claims
cite its line numbers).

The embedding covers:
* the `codes` table row shape and the two SQL statements the flow issues
  (`SELECT * FROM codes WHERE email = $1`,
   `SELECT * FROM codes WHERE status = 'active' AND code = $1`) and the
  conditional claim update of `updateCodeInDatabase`;
* the redis-backed session store (`hGetAll` / `hSet` / `expire` / `del`,
  field-map merge semantics, empty map when the key is absent);
* the extractor adapter `validateWithOpenAI`, with its external call
  modelled as an `Except` outcome (the `catch` branch is the fallback);
* the `POST /webhook` handler (`handleWebhook`), whose observable behaviour
  is returned as an HTTP status, an ordered trace of external operations,
  the resulting session store, and the resulting ledger.

Because the engine's ASK_CODE branch performs the active-code SELECT and the
claim UPDATE as two separate round-trips, the database state seen by the
UPDATE may differ from the one seen by the SELECT when other requests run in
between.  `handleWebhook` therefore takes the ledger observed by the claim
update (`dbAtClaim`) as its own parameter; a run with no interleaved writer
has `dbAtClaim = ledger`.
-/

namespace MirakiSports

/-- Verdict JSON returned by the field-extraction service:
`{message, is_valid, value}`. -/
structure Validation where
  message : String
  is_valid : Bool
  value : String
deriving DecidableEq, Repr

/-- One row of the `codes` table. -/
structure Row where
  code : String
  code_id : Nat
  status : String
  phone_number : Option String := none
  name : Option String := none
  email : Option String := none
  city : Option String := none
  created_at : Option Nat := none
  is_winner : Bool := false
deriving DecidableEq, Repr

/-- The `codes` table, as a list of rows. -/
abbrev Ledger := List Row

/-- The argument object `{phone, name, email, city, code}` of
`updateCodeInDatabase`.  `phone` is always a string at the call site
(`session.phone || from`); the other session fields may be absent. -/
structure ClaimArgs where
  phone : String
  name : Option String
  email : Option String
  city : Option String
  code : String
deriving DecidableEq, Repr

/-- The WHERE clause of the claim update:
`code = $5 AND status = 'active'`. -/
def rowMatchesClaim (code : String) (r : Row) : Bool :=
  r.code == code && r.status == "active"

/-- The SET clause of the claim update applied to one matching row:
`phone_number = $1, "name" = $2, email = $3, city = $4,
status = 'inactive', created_at = NOW()`. -/
def applyClaim (a : ClaimArgs) (now : Nat) (r : Row) : Row :=
  { r with
    phone_number := some a.phone
    name := a.name
    email := a.email
    city := a.city
    status := "inactive"
    created_at := some now }

/-- The claim UPDATE ... RETURNING * statement: first component is the list
of updated rows (what `RETURNING *` yields), second is the table after the
update. -/
def claimUpdateQuery (a : ClaimArgs) (now : Nat) (l : Ledger) :
    List Row × Ledger :=
  ((l.filter (rowMatchesClaim a.code)).map (applyClaim a now),
   l.map (fun r => if rowMatchesClaim a.code r then applyClaim a now r else r))

/-- One atomic execution of the claim update, reduced to the boolean the
caller consumes: `result.rows.length > 0`, paired with the table it leaves
behind. -/
def runClaim (a : ClaimArgs) (now : Nat) (l : Ledger) : Bool × Ledger :=
  let res := claimUpdateQuery a now l
  (decide (0 < res.1.length), res.2)

/-- Function `updateCodeInDatabase` of webhook.js lines 150-174.  The possibly
failing round-trip to the store is modelled by `dbFailure`: `some e` means
`pool.query` raised `e`, and the function's `catch` block logs and
re-throws (`throw err`), so the error propagates; `none` means the query
ran, and the function returns `true` iff `result.rows.length > 0`. -/
def updateCodeInDatabase (dbFailure : Option String) (a : ClaimArgs)
    (now : Nat) (l : Ledger) : Except String (Bool × Ledger) :=
  match dbFailure with
  | some e => .error e
  | none => .ok (runClaim a now l)

/-- Generic retry fallback returned by `validateWithOpenAI` when its call
to the external service (or the parse of its response) raises. -/
def extractorFallbackMessage : String :=
  "Sorry, I\x27m having trouble processing your input. Please try again."

/-- Adapter `validateWithOpenAI`, viewed at its boundary: the external call plus
JSON parse either produces a verdict (`.ok`) or raises (`.error`); the
`catch` block converts the latter into the fixed invalid fallback verdict
instead of re-raising. -/
def validateWithOpenAI (outcome : Except String Validation) : Validation :=
  match outcome with
  | .ok v => v
  | .error _ =>
    { message := extractorFallbackMessage, is_valid := false, value := "" }

/-- A redis session hash: the fields the flow ever writes.  `none` is an
absent field; a session whose fields are all `none` is what `hGetAll`
returns for an absent or expired key. -/
structure Session where
  step : Option String := none
  phone : Option String := none
  name : Option String := none
  email : Option String := none
  city : Option String := none
  code : Option String := none
deriving DecidableEq, Repr

/-- A field map passed to `hSet`: only the fields present (`some`) are
written. -/
structure FieldsPatch where
  step : Option String := none
  phone : Option String := none
  name : Option String := none
  email : Option String := none
  city : Option String := none
  code : Option String := none
deriving DecidableEq, Repr

/-- Merge semantics of `hSet`: fields present in the patch overwrite, absent
fields are kept. -/
def applyPatch (s : Session) (p : FieldsPatch) : Session :=
  { step := p.step <|> s.step
    phone := p.phone <|> s.phone
    name := p.name <|> s.name
    email := p.email <|> s.email
    city := p.city <|> s.city
    code := p.code <|> s.code }

/-- The session store: key/hash bindings, earliest binding wins on read. -/
abbrev SessionStore := List (String × Session)

/-- Read `redisClient.hGetAll(key)`: the stored hash, or the empty map when the
key is absent (or expired). -/
def hGetAllStore (st : SessionStore) (key : String) : Session :=
  match st.lookup key with
  | some s => s
  | none => {}

/-- Write `redisClient.hSet(key, fields)`: merge the given fields into the hash
at `key`. -/
def hSetStore (st : SessionStore) (key : String) (p : FieldsPatch) :
    SessionStore :=
  (key, applyPatch (hGetAllStore st key) p) :: st

/-- Delete `redisClient.del(key)`. -/
def delStore (st : SessionStore) (key : String) : SessionStore :=
  st.filter (fun kv => kv.1 != key)

/-- JavaScript `a || b` on a possibly-absent string (`undefined` and `""`
are falsy). -/
def jsOr (a : Option String) (b : String) : String :=
  match a with
  | some s => if s = "" then b else s
  | none => b

/-- An inbound message: `from` (sender address) and the optional
`text.body`. -/
structure Msg where
  fromAddr : String
  text : Option String
deriving DecidableEq, Repr

/-- One externally observable operation of the webhook handler, in program
order: redis commands, extractor invocations, outbound sends, and the three
ledger statements. -/
inductive Op where
  | hGetAll (key : String)
  | oracle (text step : String)
  | send (toAddr body : String)
  | hSet (key : String) (p : FieldsPatch)
  | expire (key : String) (seconds : Nat)
  | del (key : String)
  | queryEmail (email : String)
  | queryActiveCode (code : String)
  | queryClaim (a : ClaimArgs)
deriving DecidableEq, Repr

/-- Result of one `POST /webhook` invocation: HTTP status, the ordered
trace of external operations, and the stores it leaves behind. -/
structure WebhookResult where
  status : Nat
  trace : List Op
  store : SessionStore
  ledger : Ledger
deriving DecidableEq, Repr

/-- The welcome-plus-terms template literal of the welcome branch
(its inner indentation condensed). -/
def welcomeMessage : String :=
  "👋 Welcome to Maidan 72! 🏏\n\nYour chance to win ICC Women\x27s World Cup tickets & unlock once-in-a-lifetime experiences starts now!\n\nRules & Terms:\n* Each entry must be from a valid Rexona purchase.\n* One entry per unique secret code.\n* Winners will be selected at random for match tickets, special access, and more.\n* Only users from India are eligible.\n* For full details, please see our [official T&Cs here](https://www.unilevernotices.com/privacy-notices/india-english.html).\n\n🔒 Your privacy matters! We keep your information secure and use it only for contest participation and updates. Read more at the link above.\n\nIf you agree to the terms and conditions, please enter your full name."

/-- Fixed reply of the ASK_EMAIL branch when the email exists in the
ledger. -/
def alreadyRegisteredMessage : String :=
  "❌ This email is already registered with us. Please provide a different email address:"

/-- Fixed reply after a successful claim. -/
def successMessage : String :=
  "🎉 Congratulations! Your registration is complete. Your details have been saved and the scratch code has been marked as used."

/-- Fixed reply when `updateCodeInDatabase` returns false. -/
def registrationFailedMessage : String :=
  "⚠️ Registration failed. Please try again or contact support."

/-- Fixed reply when the active-code SELECT finds no row. -/
def invalidCodeMessage : String :=
  "❌ Invalid scratch code. This code is not found in our system or has already been used. Please provide a valid scratch code:"

/-- Session key derived from the sender address: `session:${from}`. -/
def sessionKeyOf (fromA : String) : String := "session:" ++ fromA

/-- Rows returned by `SELECT * FROM codes WHERE email = $1`. -/
def emailRows (ledger : Ledger) (value : String) : List Row :=
  ledger.filter (fun r => r.email == some value)

/-- Rows returned by
`SELECT * FROM codes WHERE status = 'active' AND code = $1`. -/
def activeCodeRows (ledger : Ledger) (value : String) : List Row :=
  ledger.filter (fun r => r.status == "active" && r.code == value)

/-- The argument object the ASK_CODE branch passes to
`updateCodeInDatabase`: `{phone: session.phone || from, name: session.name,
email: session.email, city: session.city, code: validation.value}`. -/
def claimArgsOf (sess : Session) (fromA value : String) : ClaimArgs :=
  { phone := jsOr sess.phone fromA
    name := sess.name
    email := sess.email
    city := sess.city
    code := value }

/-- The field map written by the welcome branch:
`{ step: "ASK_NAME", phone: from }`. -/
def welcomePatch (fromA : String) : FieldsPatch :=
  { step := some "ASK_NAME", phone := some fromA }

/-- Handler `POST /webhook` (webhook.js lines 521-671).  `event` is the message
extracted from the body (`none` when no message payload is present);
`validation` is the verdict the extractor returns for this text and step;
`now` is `NOW()` at the claim update; `dbAtClaim` is the ledger state the
claim update observes (see the file header); `store`/`ledger` are the
session store and the ledger observed by the handler's reads. -/
def handleWebhook (event : Option Msg) (validation : Validation) (now : Nat)
    (dbAtClaim : Ledger) (store : SessionStore) (ledger : Ledger) :
    WebhookResult :=
  match event with
  | none => ⟨200, [], store, ledger⟩
  | some msg =>
    let fromA := msg.fromAddr
    let text := (msg.text.getD "").trim
    let sessionKey := sessionKeyOf fromA
    let session := hGetAllStore store sessionKey
    if session.step = none ∨ session.step = some "" then
      ⟨200,
       [Op.hGetAll sessionKey, Op.send fromA welcomeMessage,
        Op.hSet sessionKey (welcomePatch fromA),
        Op.expire sessionKey (30 * 60)],
       hSetStore store sessionKey (welcomePatch fromA), ledger⟩
    else if session.step = some "ASK_NAME" then
      if validation.is_valid then
        ⟨200,
         [Op.hGetAll sessionKey, Op.oracle text "ASK_NAME",
          Op.send fromA validation.message,
          Op.hSet sessionKey
            { step := some "ASK_EMAIL", name := some validation.value }],
         hSetStore store sessionKey
           { step := some "ASK_EMAIL", name := some validation.value },
         ledger⟩
      else
        ⟨200,
         [Op.hGetAll sessionKey, Op.oracle text "ASK_NAME",
          Op.send fromA validation.message],
         store, ledger⟩
    else if session.step = some "ASK_EMAIL" then
      if validation.is_valid then
        if 0 < (emailRows ledger validation.value).length then
          ⟨200,
           [Op.hGetAll sessionKey, Op.oracle text "ASK_EMAIL",
            Op.queryEmail validation.value,
            Op.send fromA alreadyRegisteredMessage],
           store, ledger⟩
        else
          ⟨200,
           [Op.hGetAll sessionKey, Op.oracle text "ASK_EMAIL",
            Op.queryEmail validation.value,
            Op.send fromA validation.message,
            Op.hSet sessionKey
              { step := some "ASK_CITY", email := some validation.value }],
           hSetStore store sessionKey
             { step := some "ASK_CITY", email := some validation.value },
           ledger⟩
      else
        ⟨200,
         [Op.hGetAll sessionKey, Op.oracle text "ASK_EMAIL",
          Op.send fromA validation.message],
         store, ledger⟩
    else if session.step = some "ASK_CITY" then
      if validation.is_valid then
        ⟨200,
         [Op.hGetAll sessionKey, Op.oracle text "ASK_CITY",
          Op.send fromA validation.message,
          Op.hSet sessionKey
            { step := some "ASK_CODE", city := some validation.value }],
         hSetStore store sessionKey
           { step := some "ASK_CODE", city := some validation.value },
         ledger⟩
      else
        ⟨200,
         [Op.hGetAll sessionKey, Op.oracle text "ASK_CITY",
          Op.send fromA validation.message],
         store, ledger⟩
    else if session.step = some "ASK_CODE" then
      if validation.is_valid then
        if 0 < (activeCodeRows ledger validation.value).length then
          let args := claimArgsOf session fromA validation.value
          let upd := runClaim args now dbAtClaim
          if upd.1 then
            ⟨200,
             [Op.hGetAll sessionKey, Op.oracle text "ASK_CODE",
              Op.queryActiveCode validation.value,
              Op.hSet sessionKey { code := some validation.value },
              Op.queryClaim args, Op.del sessionKey,
              Op.send fromA successMessage],
             delStore
               (hSetStore store sessionKey { code := some validation.value })
               sessionKey,
             upd.2⟩
          else
            ⟨200,
             [Op.hGetAll sessionKey, Op.oracle text "ASK_CODE",
              Op.queryActiveCode validation.value,
              Op.hSet sessionKey { code := some validation.value },
              Op.queryClaim args,
              Op.send fromA registrationFailedMessage],
             hSetStore store sessionKey { code := some validation.value },
             upd.2⟩
        else
          ⟨200,
           [Op.hGetAll sessionKey, Op.oracle text "ASK_CODE",
            Op.queryActiveCode validation.value,
            Op.send fromA invalidCodeMessage],
           store, ledger⟩
      else
        ⟨200,
         [Op.hGetAll sessionKey, Op.oracle text "ASK_CODE",
          Op.send fromA validation.message],
         store, ledger⟩
    else
      ⟨200, [Op.hGetAll sessionKey], store, ledger⟩

/-- The outbound texts of a trace, in order. -/
def sentMessages (t : List Op) : List (String × String) :=
  t.filterMap (fun o => match o with
    | .send a b => some (a, b)
    | _ => none)

/-- Whether an operation is a `redisClient.expire` call. -/
def isExpireOp : Op → Bool
  | .expire _ _ => true
  | _ => false

/-! ## Concrete sample values, used by witness and counterexample
theorems -/

/-- Sample claim arguments. -/
def wArgs : ClaimArgs :=
  { phone := "911", name := some "John Doe", email := some "j@e.c",
    city := some "Mumbai", code := "ABC123" }

/-- Sample ledger: one active row for code ABC123. -/
def wLedger : Ledger := [{ code := "ABC123", code_id := 1, status := "active" }]

/-- Sample session that has reached ASK_CODE with every field collected. -/
def wSession : Session :=
  { step := some "ASK_CODE", phone := some "911", name := some "John Doe",
    email := some "j@e.c", city := some "Mumbai" }

/-- Sample store binding the sample session to the sender 911. -/
def wStore : SessionStore := [(sessionKeyOf "911", wSession)]

/-- Sample valid extractor verdict for the code step. -/
def wValid : Validation :=
  { message := "Great!", is_valid := true, value := "ABC123" }

/-- Sample session sitting at ASK_EMAIL. -/
def wEmailSession : Session :=
  { step := some "ASK_EMAIL", phone := some "911", name := some "John Doe" }

/-- Sample store for the ASK_EMAIL witnesses. -/
def wEmailStore : SessionStore := [(sessionKeyOf "911", wEmailSession)]

/-- Sample valid extractor verdict for the email step. -/
def wEmailValid : Validation :=
  { message := "Email noted!", is_valid := true, value := "new@x.io" }

/-- Sample ledger holding an inactive row that already carries the sample
email. -/
def wClaimedLedger : Ledger :=
  [{ code := "ZZZ999", code_id := 2, status := "inactive",
     email := some "new@x.io" }]

/-- Sample session sitting at ASK_NAME. -/
def wNameSession : Session := { step := some "ASK_NAME", phone := some "911" }

/-- Sample store for the ASK_NAME witness. -/
def wNameStore : SessionStore := [(sessionKeyOf "911", wNameSession)]

/-- Sample valid extractor verdict for the name step. -/
def wNameValid : Validation :=
  { message := "Nice to meet you!", is_valid := true, value := "John Doe" }

/-! ## Store and claim-query lemmas -/

/-- Reading a key straight after an `hSet` on it yields the merged hash. -/
lemma hGetAllStore_hSetStore (st : SessionStore) (k : String)
    (p : FieldsPatch) :
    hGetAllStore (hSetStore st k p) k = applyPatch (hGetAllStore st k) p := by
  simp [hSetStore, hGetAllStore, List.lookup]

lemma lookup_delStore (st : SessionStore) (k : String) :
    (delStore st k).lookup k = none := by
  induction st with
  | nil => rfl
  | cons kv t ih =>
    by_cases h : kv.1 = k
    · simpa [delStore, h] using ih
    · have hb : (kv.1 != k) = true := by simp [bne, h]
      have hk : (k == kv.1) = false := by
        simp [BEq.beq]
        exact fun hkk => h hkk.symm
      simp [delStore, List.filter_cons, hb, List.lookup, hk]
      simpa [delStore] using ih

/-- Reading a key straight after deleting it yields the empty hash. -/
lemma hGetAllStore_delStore (st : SessionStore) (k : String) :
    hGetAllStore (delStore st k) k = {} := by
  simp [hGetAllStore, lookup_delStore]

/-- A row rewritten by the claim update no longer satisfies the claim's
WHERE clause (its status is `inactive`). -/
lemma rowMatchesClaim_applyClaim (a : ClaimArgs) (now : Nat) (c : String)
    (r : Row) : rowMatchesClaim c (applyClaim a now r) = false := by
  have h : ("inactive" == "active") = false := by decide
  simp [rowMatchesClaim, applyClaim, h]

/-- After the claim update runs, no row of the table satisfies its WHERE
clause any more. -/
lemma claim_clears (a : ClaimArgs) (now : Nat) (l : Ledger) :
    (claimUpdateQuery a now l).2.filter (rowMatchesClaim a.code) = [] := by
  induction l with
  | nil => rfl
  | cons r t ih =>
    simp only [claimUpdateQuery, List.map_cons, List.filter_cons] at ih ⊢
    by_cases h : rowMatchesClaim a.code r = true
    · simp [h, rowMatchesClaim_applyClaim, ih]
    · have hf : rowMatchesClaim a.code r = false := by
        cases hx : rowMatchesClaim a.code r
        · rfl
        · exact absurd hx h
      simp [hf, ih]

/-- The boolean the claim returns, in terms of the WHERE-clause matches. -/
lemma runClaim_fst (a : ClaimArgs) (now : Nat) (l : Ledger) :
    (runClaim a now l).1 =
      decide (0 < (l.filter (rowMatchesClaim a.code)).length) := by
  simp [runClaim, claimUpdateQuery]

lemma runClaim_snd (a : ClaimArgs) (now : Nat) (l : Ledger) :
    (runClaim a now l).2 = (claimUpdateQuery a now l).2 := rfl

/-- Number of rows the claim update writes (and returns via
`RETURNING *`). -/
lemma claimUpdateQuery_returning_length (a : ClaimArgs) (now : Nat)
    (l : Ledger) :
    (claimUpdateQuery a now l).1.length =
      (l.filter (rowMatchesClaim a.code)).length := by
  simp [claimUpdateQuery]

/-! ## Claim theorems -/

/-- C1: `updateCodeInDatabase` executes the single conditional update
(set registrant fields, `status = 'inactive'`, `created_at = NOW()` where
`code` matches and `status = 'active'`); when the store fails the error
propagates out of the function (a condition distinct from the boolean
result), and otherwise it returns `true` iff exactly one row was updated
and `false` iff zero rows matched (given that at most one active row can
carry the code). -/
theorem updateCodeInDatabase_contract (a : ClaimArgs) (now : Nat)
    (l : Ledger) (e : String)
    (h : (l.filter (rowMatchesClaim a.code)).length ≤ 1) :
    updateCodeInDatabase (some e) a now l = .error e ∧
    updateCodeInDatabase none a now l = .ok (runClaim a now l) ∧
    ((runClaim a now l).1 = true ↔
      (claimUpdateQuery a now l).1.length = 1) ∧
    ((runClaim a now l).1 = false ↔
      (claimUpdateQuery a now l).1.length = 0) := by
  refine ⟨rfl, rfl, ?_, ?_⟩
  · rw [runClaim_fst, claimUpdateQuery_returning_length]
    constructor
    · intro hb; have := of_decide_eq_true hb; omega
    · intro hb; exact decide_eq_true (by omega)
  · rw [runClaim_fst, claimUpdateQuery_returning_length]
    constructor
    · intro hb; have := of_decide_eq_false hb; omega
    · intro hb; exact decide_eq_false (by omega)

/-- Witness for C1: a one-row ledger holding the active code ABC123; the
failing run propagates the error and the successful run updates exactly one
row. -/
theorem updateCodeInDatabase_contract_witness :
    updateCodeInDatabase (some "db down") wArgs 7 wLedger = .error "db down" ∧
    ((runClaim wArgs 7 wLedger).1 = true ↔
      (claimUpdateQuery wArgs 7 wLedger).1.length = 1) :=
  ⟨(updateCodeInDatabase_contract wArgs 7 wLedger "db down" (by decide)).1,
   (updateCodeInDatabase_contract wArgs 7 wLedger "db down" (by decide)).2.2.1⟩

/-- C2: for a code with at least one active row, running the atomic claim
update twice (in either interleaving order, which for a single indivisible
read-modify-write is one of the two sequential orders) yields exactly one
`true` and one `false`: the first execution succeeds and leaves no active
row with that code, so the second returns `false`. -/
theorem claim_at_most_one_success (a : ClaimArgs) (n1 n2 : Nat) (l : Ledger)
    (h : 0 < (l.filter (rowMatchesClaim a.code)).length) :
    (runClaim a n1 l).1 = true ∧
    (runClaim a n2 (runClaim a n1 l).2).1 = false := by
  refine ⟨?_, ?_⟩
  · rw [runClaim_fst]; exact decide_eq_true h
  · rw [runClaim_fst, runClaim_snd, claim_clears]
    simp

/-- Witness for C2 at the sample active ledger. -/
theorem claim_at_most_one_success_witness :
    (runClaim wArgs 1 wLedger).1 = true ∧
    (runClaim wArgs 2 (runClaim wArgs 1 wLedger).2).1 = false :=
  claim_at_most_one_success wArgs 1 2 wLedger (by decide)

/-- C7: an inbound event carrying no message payload is acknowledged with
HTTP 200 and produces no state change at all: the operation trace is empty
(no session read/write/delete, no ledger query, no outbound send) and both
stores are returned unchanged. -/
theorem no_message_event_is_noop (v : Validation) (now : Nat) (d : Ledger)
    (store : SessionStore) (ledger : Ledger) :
    handleWebhook none v now d store ledger = ⟨200, [], store, ledger⟩ := rfl

/-- C8: whenever the extractor adapter's internal call fails (any raised
error from the external service or the response parse), the adapter returns
the generic retry verdict with `is_valid = false` and an empty value; being
a total function into `Validation`, it propagates no exception, and on a
successful call it passes the verdict through. -/
theorem extractor_failure_returns_fallback (e : String) (v : Validation) :
    validateWithOpenAI (.error e) =
      { message := extractorFallbackMessage, is_valid := false,
        value := "" } ∧
    (validateWithOpenAI (.error e)).is_valid = false ∧
    (validateWithOpenAI (.error e)).value = "" ∧
    validateWithOpenAI (.ok v) = v :=
  ⟨rfl, rfl, rfl, rfl⟩

/-- C6: for every inbound event whose sender has no session step stored
(absent or expired key), the engine — regardless of the message text and of
any extractor verdict — sends the welcome-plus-terms message, initializes
the session with `step = ASK_NAME` and the sender's address as `phone`, and
discards the raw text (the result is identical for any two texts and
verdicts, and the trace contains no extractor call). -/
theorem welcome_on_no_step (f : String) (t1 t2 : Option String)
    (v1 v2 : Validation) (now : Nat) (d : Ledger) (store : SessionStore)
    (ledger : Ledger)
    (hstep : (hGetAllStore store (sessionKeyOf f)).step = none) :
    handleWebhook (some ⟨f, t1⟩) v1 now d store ledger =
      ⟨200,
       [Op.hGetAll (sessionKeyOf f), Op.send f welcomeMessage,
        Op.hSet (sessionKeyOf f) (welcomePatch f),
        Op.expire (sessionKeyOf f) (30 * 60)],
       hSetStore store (sessionKeyOf f) (welcomePatch f), ledger⟩ ∧
    handleWebhook (some ⟨f, t1⟩) v1 now d store ledger =
      handleWebhook (some ⟨f, t2⟩) v2 now d store ledger ∧
    (hGetAllStore (hSetStore store (sessionKeyOf f) (welcomePatch f))
        (sessionKeyOf f)).step = some "ASK_NAME" ∧
    (hGetAllStore (hSetStore store (sessionKeyOf f) (welcomePatch f))
        (sessionKeyOf f)).phone = some f := by
  have h1 : ∀ (t : Option String) (v : Validation),
      handleWebhook (some ⟨f, t⟩) v now d store ledger =
        ⟨200,
         [Op.hGetAll (sessionKeyOf f), Op.send f welcomeMessage,
          Op.hSet (sessionKeyOf f) (welcomePatch f),
          Op.expire (sessionKeyOf f) (30 * 60)],
         hSetStore store (sessionKeyOf f) (welcomePatch f), ledger⟩ := by
    intro t v
    simp [handleWebhook, hstep]
  refine ⟨h1 t1 v1, (h1 t1 v1).trans (h1 t2 v2).symm, ?_, ?_⟩
  · rw [hGetAllStore_hSetStore]; simp [applyPatch, welcomePatch]
  · rw [hGetAllStore_hSetStore]; simp [applyPatch, welcomePatch]

/-- Witness for C6: a first message from a fresh sender gives a result
independent of its text and verdict, and the created session is at
ASK_NAME. -/
theorem welcome_on_no_step_witness :
    handleWebhook (some ⟨"777", some "first message"⟩) ⟨"m1", true, "x"⟩ 0
        [] [] [] =
      handleWebhook (some ⟨"777", some "something else"⟩) ⟨"m2", false, ""⟩ 0
        [] [] [] ∧
    (hGetAllStore (hSetStore [] (sessionKeyOf "777") (welcomePatch "777"))
        (sessionKeyOf "777")).step = some "ASK_NAME" :=
  ⟨(welcome_on_no_step "777" (some "first message") (some "something else")
      ⟨"m1", true, "x"⟩ ⟨"m2", false, ""⟩ 0 [] [] [] (by decide)).2.1,
   (welcome_on_no_step "777" (some "first message") (some "something else")
      ⟨"m1", true, "x"⟩ ⟨"m2", false, ""⟩ 0 [] [] [] (by decide)).2.2.1⟩

/-- C9: a `redisClient.expire` call appears in the handler's trace exactly
once when the session is created on the welcome transition and never
otherwise — no step branch (the `hSet` writes for name, email, city, or
code) calls expire again — and on the welcome transition it is the 30-minute
expiry set right after the session hash is first written. -/
theorem expire_set_only_at_creation (f : String) (t : Option String)
    (v : Validation) (now : Nat) (d : Ledger) (store : SessionStore)
    (ledger : Ledger) :
    ((handleWebhook (some ⟨f, t⟩) v now d store ledger).trace.countP
        isExpireOp) =
      (if (hGetAllStore store (sessionKeyOf f)).step = none ∨
          (hGetAllStore store (sessionKeyOf f)).step = some "" then 1
       else 0) ∧
    ((hGetAllStore store (sessionKeyOf f)).step = none →
      (handleWebhook (some ⟨f, t⟩) v now d store ledger).trace =
        [Op.hGetAll (sessionKeyOf f), Op.send f welcomeMessage,
         Op.hSet (sessionKeyOf f) (welcomePatch f),
         Op.expire (sessionKeyOf f) (30 * 60)]) := by
  constructor
  · simp only [handleWebhook]
    split
    · rename_i h
      simp [h, isExpireOp]
    · rename_i h
      repeat' split
      all_goals simp [isExpireOp, List.countP_cons, List.countP_nil]
  · intro hstep
    simp [handleWebhook, hstep]

/-- Witness for C9: the fresh-sender run sets the expiry once; a run in
step ASK_CODE sets no expiry. -/
theorem expire_set_only_at_creation_witness :
    (handleWebhook (some ⟨"777", some "hi"⟩) ⟨"m", true, "x"⟩ 0 [] []
        []).trace.countP isExpireOp = 1 ∧
    (handleWebhook (some ⟨"911", some "ABC123"⟩) wValid 0 [] wStore
        wLedger).trace.countP isExpireOp = 0 :=
  ⟨((expire_set_only_at_creation "777" (some "hi") ⟨"m", true, "x"⟩ 0 [] []
      []).1).trans (if_pos (Or.inl (by decide))),
   ((expire_set_only_at_creation "911" (some "ABC123") wValid 0 [] wStore
      wLedger).1).trans (if_neg (by decide))⟩

/-- C4: in step ASK_EMAIL with a valid extractor verdict, when the
extracted email appears anywhere in the Code Ledger (in particular when an
inactive row carries it) the engine leaves the store — and hence the
session, still at ASK_EMAIL without the email — untouched and sends the
fixed "already registered" message instead of the extractor's; only when no
such row exists does it send the extractor's message, store the email and
advance the step to ASK_CITY. -/
theorem askEmail_uniqueness_gate (f : String) (t : Option String)
    (v : Validation) (now : Nat) (d : Ledger) (store : SessionStore)
    (ledger : Ledger) (row : Row)
    (hstep : (hGetAllStore store (sessionKeyOf f)).step = some "ASK_EMAIL")
    (hvalid : v.is_valid = true) :
    (0 < (emailRows ledger v.value).length →
      handleWebhook (some ⟨f, t⟩) v now d store ledger =
        ⟨200,
         [Op.hGetAll (sessionKeyOf f),
          Op.oracle ((t.getD "").trim) "ASK_EMAIL",
          Op.queryEmail v.value, Op.send f alreadyRegisteredMessage],
         store, ledger⟩) ∧
    (row ∈ ledger → row.email = some v.value →
      0 < (emailRows ledger v.value).length) ∧
    ((emailRows ledger v.value).length = 0 →
      handleWebhook (some ⟨f, t⟩) v now d store ledger =
        ⟨200,
         [Op.hGetAll (sessionKeyOf f),
          Op.oracle ((t.getD "").trim) "ASK_EMAIL",
          Op.queryEmail v.value, Op.send f v.message,
          Op.hSet (sessionKeyOf f)
            { step := some "ASK_CITY", email := some v.value }],
         hSetStore store (sessionKeyOf f)
           { step := some "ASK_CITY", email := some v.value },
         ledger⟩ ∧
      (hGetAllStore (hSetStore store (sessionKeyOf f)
          { step := some "ASK_CITY", email := some v.value })
          (sessionKeyOf f)).step = some "ASK_CITY" ∧
      (hGetAllStore (hSetStore store (sessionKeyOf f)
          { step := some "ASK_CITY", email := some v.value })
          (sessionKeyOf f)).email = some v.value) := by
  refine ⟨?_, ?_, ?_⟩
  · intro h
    simp [handleWebhook, hstep, hvalid, h]
  · intro hm he
    have hmem : row ∈ emailRows ledger v.value :=
      List.mem_filter.mpr ⟨hm, by simp [he]⟩
    exact List.length_pos.mpr (List.ne_nil_of_mem hmem)
  · intro h
    have h' : ¬ (0 < (emailRows ledger v.value).length) := by omega
    refine ⟨by simp [handleWebhook, hstep, hvalid, h'], ?_, ?_⟩
    · rw [hGetAllStore_hSetStore]; simp [applyPatch]
    · rw [hGetAllStore_hSetStore]; simp [applyPatch]

/-- Witness for C4: the same valid email is rejected against a ledger whose
inactive row already carries it (store unchanged) and accepted against an
empty ledger (email stored, step advanced). -/
theorem askEmail_uniqueness_gate_witness :
    handleWebhook (some ⟨"911", some "new@x.io"⟩) wEmailValid 0 []
        wEmailStore wClaimedLedger =
      ⟨200,
       [Op.hGetAll (sessionKeyOf "911"),
        Op.oracle (("new@x.io").trim) "ASK_EMAIL",
        Op.queryEmail "new@x.io", Op.send "911" alreadyRegisteredMessage],
       wEmailStore, wClaimedLedger⟩ ∧
    handleWebhook (some ⟨"911", some "new@x.io"⟩) wEmailValid 0 []
        wEmailStore [] =
      ⟨200,
       [Op.hGetAll (sessionKeyOf "911"),
        Op.oracle (("new@x.io").trim) "ASK_EMAIL",
        Op.queryEmail "new@x.io", Op.send "911" wEmailValid.message,
        Op.hSet (sessionKeyOf "911")
          { step := some "ASK_CITY", email := some "new@x.io" }],
       hSetStore wEmailStore (sessionKeyOf "911")
         { step := some "ASK_CITY", email := some "new@x.io" },
       []⟩ :=
  ⟨(askEmail_uniqueness_gate "911" (some "new@x.io") wEmailValid 0 []
      wEmailStore wClaimedLedger { code := "", code_id := 0, status := "" }
      (by decide) (by decide)).1 (by decide),
   ((askEmail_uniqueness_gate "911" (some "new@x.io") wEmailValid 0 []
      wEmailStore [] { code := "", code_id := 0, status := "" }
      (by decide) (by decide)).2.2 (by decide)).1⟩

/-- C3: in step ASK_CODE with a valid extractor verdict — when the claim
succeeds the engine deletes the session entirely (the key reads back as the
empty hash) and sends the success message, and a subsequent message from
the same address runs the brand-new-conversation welcome transition; when
the code is not found active, or found but the claim update returns false,
the session is not deleted, its step remains ASK_CODE with the previously
stored fields intact, and the user receives the invalid-code or
registration-failed message. -/
theorem askCode_claim_outcome (f : String) (t t2 : Option String)
    (v v2 : Validation) (now n2 : Nat) (d d2 l2 : Ledger)
    (store : SessionStore) (ledger : Ledger)
    (hstep : (hGetAllStore store (sessionKeyOf f)).step = some "ASK_CODE")
    (hvalid : v.is_valid = true) :
    (0 < (activeCodeRows ledger v.value).length →
     (runClaim (claimArgsOf (hGetAllStore store (sessionKeyOf f)) f v.value)
        now d).1 = true →
      hGetAllStore (handleWebhook (some ⟨f, t⟩) v now d store ledger).store
          (sessionKeyOf f) = {} ∧
      sentMessages
          (handleWebhook (some ⟨f, t⟩) v now d store ledger).trace =
        [(f, successMessage)] ∧
      handleWebhook (some ⟨f, t2⟩) v2 n2 d2
          (handleWebhook (some ⟨f, t⟩) v now d store ledger).store l2 =
        ⟨200,
         [Op.hGetAll (sessionKeyOf f), Op.send f welcomeMessage,
          Op.hSet (sessionKeyOf f) (welcomePatch f),
          Op.expire (sessionKeyOf f) (30 * 60)],
         hSetStore
           (handleWebhook (some ⟨f, t⟩) v now d store ledger).store
           (sessionKeyOf f) (welcomePatch f), l2⟩) ∧
    (0 < (activeCodeRows ledger v.value).length →
     (runClaim (claimArgsOf (hGetAllStore store (sessionKeyOf f)) f v.value)
        now d).1 = false →
      hGetAllStore (handleWebhook (some ⟨f, t⟩) v now d store ledger).store
          (sessionKeyOf f) =
        { hGetAllStore store (sessionKeyOf f) with code := some v.value } ∧
      (hGetAllStore (handleWebhook (some ⟨f, t⟩) v now d store ledger).store
          (sessionKeyOf f)).step = some "ASK_CODE" ∧
      sentMessages
          (handleWebhook (some ⟨f, t⟩) v now d store ledger).trace =
        [(f, registrationFailedMessage)]) ∧
    ((activeCodeRows ledger v.value).length = 0 →
      handleWebhook (some ⟨f, t⟩) v now d store ledger =
        ⟨200,
         [Op.hGetAll (sessionKeyOf f),
          Op.oracle ((t.getD "").trim) "ASK_CODE",
          Op.queryActiveCode v.value, Op.send f invalidCodeMessage],
         store, ledger⟩) := by
  refine ⟨?_, ?_, ?_⟩
  · intro h1 h2
    have hres : handleWebhook (some ⟨f, t⟩) v now d store ledger =
        ⟨200,
         [Op.hGetAll (sessionKeyOf f),
          Op.oracle ((t.getD "").trim) "ASK_CODE",
          Op.queryActiveCode v.value,
          Op.hSet (sessionKeyOf f) { code := some v.value },
          Op.queryClaim
            (claimArgsOf (hGetAllStore store (sessionKeyOf f)) f v.value),
          Op.del (sessionKeyOf f), Op.send f successMessage],
         delStore
           (hSetStore store (sessionKeyOf f) { code := some v.value })
           (sessionKeyOf f),
         (runClaim (claimArgsOf (hGetAllStore store (sessionKeyOf f)) f
            v.value) now d).2⟩ := by
      simp [handleWebhook, hstep, hvalid, h1, h2]
    rw [hres]
    refine ⟨hGetAllStore_delStore _ _, by simp [sentMessages], ?_⟩
    have hempty : (hGetAllStore
        (delStore (hSetStore store (sessionKeyOf f) { code := some v.value })
          (sessionKeyOf f)) (sessionKeyOf f)).step = none := by
      rw [hGetAllStore_delStore]
    simp [handleWebhook, hempty]
  · intro h1 h2
    have hres : handleWebhook (some ⟨f, t⟩) v now d store ledger =
        ⟨200,
         [Op.hGetAll (sessionKeyOf f),
          Op.oracle ((t.getD "").trim) "ASK_CODE",
          Op.queryActiveCode v.value,
          Op.hSet (sessionKeyOf f) { code := some v.value },
          Op.queryClaim
            (claimArgsOf (hGetAllStore store (sessionKeyOf f)) f v.value),
          Op.send f registrationFailedMessage],
         hSetStore store (sessionKeyOf f) { code := some v.value },
         (runClaim (claimArgsOf (hGetAllStore store (sessionKeyOf f)) f
            v.value) now d).2⟩ := by
      simp [handleWebhook, hstep, hvalid, h1, h2]
    rw [hres]
    refine ⟨?_, ?_, by simp [sentMessages]⟩
    · rw [hGetAllStore_hSetStore]
      simp [applyPatch]
    · rw [hGetAllStore_hSetStore]
      simp [applyPatch, hstep]
  · intro h
    have h' : ¬ (0 < (activeCodeRows ledger v.value).length) := by omega
    simp [handleWebhook, hstep, hvalid, h']

/-- Witness for C3 on the success path: the sample ASK_CODE session claims
the active sample code, the session key reads back empty and exactly the
success message is sent. -/
theorem askCode_claim_outcome_witness :
    hGetAllStore
        (handleWebhook (some ⟨"911", some "ABC123"⟩) wValid 7 wLedger
          wStore wLedger).store (sessionKeyOf "911") = {} ∧
    sentMessages
        (handleWebhook (some ⟨"911", some "ABC123"⟩) wValid 7 wLedger
          wStore wLedger).trace = [("911", successMessage)] := by
  have h := (askCode_claim_outcome "911" (some "ABC123") (some "hi again")
    wValid wValid 7 0 wLedger [] [] wStore wLedger
    (by decide) (by decide)).1 (by decide) (by decide)
  exact ⟨h.1, h.2.1⟩

/-- C10: in step ASK_CODE with a valid verdict and a successful active-code
lookup, the engine writes the extracted code into the session before it
invokes the claim update (the `hSet` of the code precedes the claim in the
trace); when the claim then returns false the session still exists with
step ASK_CODE, retains all previously stored fields, and additionally holds
the code field. -/
theorem askCode_stores_code_before_claim (f : String) (t : Option String)
    (v : Validation) (now : Nat) (d : Ledger) (store : SessionStore)
    (ledger : Ledger)
    (hstep : (hGetAllStore store (sessionKeyOf f)).step = some "ASK_CODE")
    (hvalid : v.is_valid = true)
    (hfound : 0 < (activeCodeRows ledger v.value).length)
    (hfail : (runClaim (claimArgsOf (hGetAllStore store (sessionKeyOf f)) f
        v.value) now d).1 = false) :
    (handleWebhook (some ⟨f, t⟩) v now d store ledger).trace =
      [Op.hGetAll (sessionKeyOf f),
       Op.oracle ((t.getD "").trim) "ASK_CODE",
       Op.queryActiveCode v.value,
       Op.hSet (sessionKeyOf f) { code := some v.value },
       Op.queryClaim
         (claimArgsOf (hGetAllStore store (sessionKeyOf f)) f v.value),
       Op.send f registrationFailedMessage] ∧
    hGetAllStore (handleWebhook (some ⟨f, t⟩) v now d store ledger).store
        (sessionKeyOf f) =
      { hGetAllStore store (sessionKeyOf f) with code := some v.value } ∧
    (hGetAllStore (handleWebhook (some ⟨f, t⟩) v now d store ledger).store
        (sessionKeyOf f)).step = some "ASK_CODE" := by
  have hres : handleWebhook (some ⟨f, t⟩) v now d store ledger =
      ⟨200,
       [Op.hGetAll (sessionKeyOf f),
        Op.oracle ((t.getD "").trim) "ASK_CODE",
        Op.queryActiveCode v.value,
        Op.hSet (sessionKeyOf f) { code := some v.value },
        Op.queryClaim
          (claimArgsOf (hGetAllStore store (sessionKeyOf f)) f v.value),
        Op.send f registrationFailedMessage],
       hSetStore store (sessionKeyOf f) { code := some v.value },
       (runClaim (claimArgsOf (hGetAllStore store (sessionKeyOf f)) f
          v.value) now d).2⟩ := by
    simp [handleWebhook, hstep, hvalid, hfound, hfail]
  rw [hres]
  refine ⟨rfl, ?_, ?_⟩
  · rw [hGetAllStore_hSetStore]; simp [applyPatch]
  · rw [hGetAllStore_hSetStore]; simp [applyPatch, hstep]

/-- Witness for C10: the code is found active at the SELECT but the ledger
observed by the claim update is empty (another request claimed it in
between), so the claim returns false and the session keeps all fields plus
the code. -/
theorem askCode_stores_code_before_claim_witness :
    hGetAllStore
        (handleWebhook (some ⟨"911", some "ABC123"⟩) wValid 7 [] wStore
          wLedger).store (sessionKeyOf "911") =
      { wSession with code := some "ABC123" } ∧
    (hGetAllStore
        (handleWebhook (some ⟨"911", some "ABC123"⟩) wValid 7 [] wStore
          wLedger).store (sessionKeyOf "911")).step = some "ASK_CODE" := by
  have h := askCode_stores_code_before_claim "911" (some "ABC123") wValid 7
    [] wStore wLedger (by decide) (by decide) (by decide) (by decide)
  exact ⟨h.2.1, h.2.2⟩

/-- C5 counterexample: a session in ASK_EMAIL with a valid extractor
verdict whose email is absent from the ledger — the engine's single reply
is exactly the extractor's message, so, contrary to the claim, for
ASK_EMAIL the extractor's message is not sent only on the invalid
branch. -/
theorem askEmail_valid_branch_sends_extractor_message :
    wEmailValid.is_valid = true ∧
    (hGetAllStore wEmailStore (sessionKeyOf "911")).step =
      some "ASK_EMAIL" ∧
    sentMessages
        (handleWebhook (some ⟨"911", some "new@x.io"⟩) wEmailValid 0 []
          wEmailStore []).trace =
      [("911", wEmailValid.message)] := by
  refine ⟨rfl, by decide, ?_⟩
  decide

/-- C5 (amended): the engine sends the extractor's message for ASK_NAME and
ASK_CITY regardless of the verdict; for ASK_EMAIL and ASK_CODE the invalid
branch sends the extractor's message, while the valid branch chooses the
reply only after the database-backed side effect — for ASK_EMAIL that reply
is the fixed already-registered message when the email exists and otherwise
the extractor's message, while for ASK_CODE it is always one of the fixed
engine-authored messages (success, registration-failed, or
invalid-code). -/
theorem reply_source_by_step (f : String) (t : Option String)
    (v : Validation) (now : Nat) (d : Ledger) (store : SessionStore)
    (ledger : Ledger) :
    ((hGetAllStore store (sessionKeyOf f)).step = some "ASK_NAME" →
      sentMessages (handleWebhook (some ⟨f, t⟩) v now d store ledger).trace =
        [(f, v.message)]) ∧
    ((hGetAllStore store (sessionKeyOf f)).step = some "ASK_CITY" →
      sentMessages (handleWebhook (some ⟨f, t⟩) v now d store ledger).trace =
        [(f, v.message)]) ∧
    ((hGetAllStore store (sessionKeyOf f)).step = some "ASK_EMAIL" →
      v.is_valid = false →
      sentMessages (handleWebhook (some ⟨f, t⟩) v now d store ledger).trace =
        [(f, v.message)]) ∧
    ((hGetAllStore store (sessionKeyOf f)).step = some "ASK_CODE" →
      v.is_valid = false →
      sentMessages (handleWebhook (some ⟨f, t⟩) v now d store ledger).trace =
        [(f, v.message)]) ∧
    ((hGetAllStore store (sessionKeyOf f)).step = some "ASK_EMAIL" →
      v.is_valid = true →
      (0 < (emailRows ledger v.value).length →
        sentMessages
            (handleWebhook (some ⟨f, t⟩) v now d store ledger).trace =
          [(f, alreadyRegisteredMessage)]) ∧
      ((emailRows ledger v.value).length = 0 →
        sentMessages
            (handleWebhook (some ⟨f, t⟩) v now d store ledger).trace =
          [(f, v.message)])) ∧
    ((hGetAllStore store (sessionKeyOf f)).step = some "ASK_CODE" →
      v.is_valid = true →
      (sentMessages
          (handleWebhook (some ⟨f, t⟩) v now d store ledger).trace =
        [(f, successMessage)] ∨
       sentMessages
          (handleWebhook (some ⟨f, t⟩) v now d store ledger).trace =
        [(f, registrationFailedMessage)] ∨
       sentMessages
          (handleWebhook (some ⟨f, t⟩) v now d store ledger).trace =
        [(f, invalidCodeMessage)])) := by
  refine ⟨?_, ?_, ?_, ?_, ?_, ?_⟩
  · intro hstep
    cases hv : v.is_valid <;> simp [handleWebhook, hstep, hv, sentMessages]
  · intro hstep
    cases hv : v.is_valid <;> simp [handleWebhook, hstep, hv, sentMessages]
  · intro hstep hv
    simp [handleWebhook, hstep, hv, sentMessages]
  · intro hstep hv
    simp [handleWebhook, hstep, hv, sentMessages]
  · intro hstep hv
    constructor
    · intro h
      simp [handleWebhook, hstep, hv, h, sentMessages]
    · intro h
      have h' : ¬ (0 < (emailRows ledger v.value).length) := by omega
      simp [handleWebhook, hstep, hv, h', sentMessages]
  · intro hstep hv
    by_cases hfound : 0 < (activeCodeRows ledger v.value).length
    · by_cases hclaim : (runClaim (claimArgsOf
          (hGetAllStore store (sessionKeyOf f)) f v.value) now d).1 = true
      · left
        simp [handleWebhook, hstep, hv, hfound, hclaim, sentMessages]
      · right; left
        have hc : (runClaim (claimArgsOf
            (hGetAllStore store (sessionKeyOf f)) f v.value) now d).1 =
            false := by
          cases hx : (runClaim (claimArgsOf
              (hGetAllStore store (sessionKeyOf f)) f v.value) now d).1
          · rfl
          · exact absurd hx hclaim
        simp [handleWebhook, hstep, hv, hfound, hc, sentMessages]
    · right; right
      simp [handleWebhook, hstep, hv, hfound, sentMessages]

/-- Witness for the amended C5: an ASK_NAME run replies with the
extractor's message, and an ASK_EMAIL run whose email is already claimed
replies with the fixed already-registered message. -/
theorem reply_source_by_step_witness :
    sentMessages
        (handleWebhook (some ⟨"911", some "John Doe"⟩) wNameValid 0 []
          wNameStore []).trace = [("911", wNameValid.message)] ∧
    sentMessages
        (handleWebhook (some ⟨"911", some "new@x.io"⟩) wEmailValid 0 []
          wEmailStore wClaimedLedger).trace =
      [("911", alreadyRegisteredMessage)] :=
  ⟨(reply_source_by_step "911" (some "John Doe") wNameValid 0 [] wNameStore
      []).1 (by decide),
   ((reply_source_by_step "911" (some "new@x.io") wEmailValid 0 []
      wEmailStore wClaimedLedger).2.2.2.2.1 (by decide) rfl).1 (by decide)⟩

end MirakiSports
